import Mathlib

/-!
Shallow embedding of `camilla_remote_control.py`: the channel-mapping
builder (`get_channel_map`), the pipeline-configuration synthesizer
(`create_config`), the startup catalog (`create_configs`), and the live
control handlers (`on_vol_up`, `on_vol_down`, `set_balance`, `menu_step`,
`load_config_object`).  Python floats are modelled as ℚ (every constant
involved — 0.5, 99.5, 6.0, gains — is exactly representable, so float
arithmetic on them is exact); Python dicts that preserve insertion order
are modelled as association lists.
-/

namespace CamillaRC

/-- Module-level constant `MIN_VOL = -99.5`. -/
def MIN_VOL : ℚ := -99.5

/-- Module-level constant `VOL_STEP = 0.5`. -/
def VOL_STEP : ℚ := 0.5

/-- Source constant `MENU_MAP['config']`. -/
def menu_config : List String := ["2.1 DRC", "2.1", "2.0", "Mono"]

/-- Source constant `MENU_MAP['source']`. -/
def menu_source : List String := ["Stream", "Phono"]

/-- Module-level constant `PLAYBACK_DEVICE`. -/
def PLAYBACK_DEVICE : String := "hw:CARD=M4,DEV=0"

/-- Module-level constant `PLAYBACK_CHANNELS = 4`. -/
def PLAYBACK_CHANNELS : ℕ := 4

/-- Module-level constant `CROSSOVER_FREQUENCY = 80`. -/
def CROSSOVER_FREQUENCY : ℚ := 80

/-- Module-level constant `MAINS_DELAY = 9.2`. -/
def MAINS_DELAY : ℚ := 9.2

/-- Module-level constant `SAMPLERATE = 44100`. -/
def SAMPLERATE : ℕ := 44100

/-- Constant `CONFIG_DIR` (the `~` expansion is kept literal: the path is opaque data
to the core, never parsed). -/
def CONFIG_DIR : String := "~/my-camilladsp-config"

/-- Module-level constant `DRC_FILTER = os.path.join(CONFIG_DIR, 'filters/drc.wav')`. -/
def DRC_FILTER : String := CONFIG_DIR ++ "/filters/drc.wav"

/-- One element of a mapping's `sources` list:
`{'channel': j, 'gain': gain, 'inverted': False, 'mute': False}`. -/
structure MixSource where
  channel : ℕ
  gain : ℚ
  inverted : Bool
  mute : Bool
deriving DecidableEq, Repr, Inhabited

/-- One element of a mixer's `mapping` list:
`{'dest': i, 'mute': False, 'sources': [...]}`. -/
structure ChannelMapping where
  dest : ℕ
  mute : Bool
  sources : List MixSource
deriving DecidableEq, Repr, Inhabited

/-- Function `get_channel_map(destinations, input_channels, mono=False, gain=0.0)`.
With `mono` every destination receives one source entry per input channel at
`gain`; otherwise destinations and input channels are `zip`ped, one source
entry each, at `gain`. -/
def get_channel_map (destinations input_channels : List ℕ)
    (mono : Bool) (gain : ℚ) : List ChannelMapping :=
  if mono then
    destinations.map (fun i =>
      { dest := i, mute := false,
        sources := input_channels.map (fun j =>
          { channel := j, gain := gain, inverted := false, mute := false }) })
  else
    (destinations.zip input_channels).map (fun ij =>
      { dest := ij.1, mute := false,
        sources := [{ channel := ij.2, gain := gain,
                      inverted := false, mute := false }] })

/-- The `'capture'` device block of `config['devices']`. -/
structure CaptureDevice where
  avoid_blocking_read : Bool
  channels : ℕ
  device : String
  format : String
  retry_on_error : Bool
  alsa_type : String
deriving DecidableEq, Repr

/-- The `'playback'` device block of `config['devices']`. -/
structure PlaybackDevice where
  channels : ℕ
  device : String
  format : String
  alsa_type : String
deriving DecidableEq, Repr

/-- Block `config['devices']`. -/
structure Devices where
  adjust_period : ℚ
  capture : CaptureDevice
  capture_samplerate : ℕ
  chunksize : ℕ
  enable_rate_adjust : Bool
  enable_resampling : Bool
  playback : PlaybackDevice
  queuelimit : ℕ
  resampler_type : String
  samplerate : ℕ
  silence_threshold : ℚ
  silence_timeout : ℚ
  target_level : ℕ
deriving DecidableEq, Repr

/-- One entry of the `config['filters']` dict, tagged by its `'type'`;
each constructor carries that filter type's `'parameters'` fields. -/
inductive FilterDef where
  | volume (ramp_time : ℚ)
  | conv (wav_type : String) (filename : Option String) (channel : ℕ)
  | biquadCombo (combo_type : String) (freq : ℚ) (order : ℕ)
  | delay (delay : ℚ) (unit : String) (subsample : Bool)
deriving DecidableEq, Repr

/-- One named mixer of `config['mixers']`. -/
structure Mixer where
  channels_in : ℕ
  channels_out : ℕ
  mapping : List ChannelMapping
deriving DecidableEq, Repr

/-- One element of `config['pipeline']`: a `{'type': 'Filter', 'channel': i,
'names': [...]}` step or a `{'type': 'Mixer', 'name': n}` step. -/
inductive PipelineStep where
  | filter (channel : ℕ) (names : List String)
  | mixer (name : String)
deriving DecidableEq, Repr

/-- The full configuration object returned by `create_config`; dicts keyed by
name become association lists in insertion order. -/
structure Config where
  devices : Devices
  mixers : List (String × Mixer)
  filters : List (String × FilterDef)
  pipeline : List PipelineStep
deriving DecidableEq, Repr

/-- Python's substring test `needle in hay` on the underlying character
lists; used for the source's `if routing in '2.1'` check. -/
def sub_list (n : List Char) : List Char → Bool
  | [] => n.isEmpty
  | c :: t => n.isPrefixOf (c :: t) || sub_list n t

/-- Python's `needle in hay` for strings. -/
def py_str_in (needle hay : String) : Bool :=
  sub_list needle.toList hay.toList

/-- Function `create_config(routing, input_source, correction, playback_device,
playback_channels, samplerate, crossover, delay, drc_filter)`.  The Python
defaults are `'2.1', 'Stream', 'DRC', 'hw:Headphone,0', 4, 44100, 80, 0.0,
None`; Lean callers pass all arguments positionally. -/
def create_config (routing input_source correction playback_device : String)
    (playback_channels samplerate : ℕ) (crossover delay : ℚ)
    (drc_filter : Option String) : Config :=
  let input_channels0 : List ℕ := [0, 1]
  let destinations : List ℕ := [0, 1]
  let input_channels :=
    if input_source ≠ "Stream" then input_channels0.map (· + 2)
    else input_channels0
  let capture_device :=
    if input_source ≠ "Stream" then playback_device else "hw:Loopback,1"
  let capture_channels :=
    if input_source ≠ "Stream" then playback_channels else 2
  let devices : Devices :=
    { adjust_period := 10,
      capture := { avoid_blocking_read := false, channels := capture_channels,
                   device := capture_device, format := "S32LE",
                   retry_on_error := false, alsa_type := "Alsa" },
      capture_samplerate := 0, chunksize := 8192,
      enable_rate_adjust := true, enable_resampling := false,
      playback := { channels := playback_channels, device := playback_device,
                    format := "S32LE", alsa_type := "Alsa" },
      queuelimit := 4, resampler_type := "BalancedAsync",
      samplerate := samplerate, silence_threshold := 0,
      silence_timeout := 0, target_level := 0 }
  let mapping :=
    if routing = "Mono" then
      get_channel_map destinations input_channels true (-6)
    else
      get_channel_map destinations input_channels false 0
  let mixer_name := input_source ++ "-" ++ routing
  let filters0 : List (String × FilterDef) :=
    [("volume", .volume 200)]
  let input_filters0 : List PipelineStep :=
    input_channels.map (fun i => .filter i ["volume"])
  let filters1 :=
    if correction = "DRC" then
      filters0 ++ (List.range input_channels.length).map (fun i =>
        ("drc_" ++ toString i, FilterDef.conv "Wav" drc_filter i))
    else filters0
  let input_filters :=
    if correction = "DRC" then
      input_channels.enum.map (fun ic =>
        PipelineStep.filter ic.2 ["volume", "drc_" ++ toString ic.1])
    else input_filters0
  let pipeline0 := input_filters ++ [.mixer mixer_name]
  let res :=
    if routing = "2.1" ∨ routing = "2.2" then
      let sub_destinations0 := destinations.map (· + 2)
      let sd_sm :=
        if py_str_in routing "2.1" then
          let sd := sub_destinations0.take 1
          (sd, get_channel_map sd input_channels true 0)
        else if routing = "2.2" then
          (sub_destinations0,
           get_channel_map sub_destinations0 input_channels false 0)
        else  -- unreachable: the outer guard only admits '2.1' and '2.2'
          (sub_destinations0, [])
      let crossover_filters : List (String × FilterDef) :=
        [("sublowpass", .biquadCombo "LinkwitzRileyLowpass" crossover 8),
         ("mainshighpass", .biquadCombo "LinkwitzRileyHighpass" crossover 8),
         ("mainsdelay", .delay delay "ms" false)]
      let mains_output_filters : List PipelineStep :=
        destinations.map (fun i => .filter i ["mainshighpass", "mainsdelay"])
      let sub_output_filters : List PipelineStep :=
        sd_sm.1.map (fun i => .filter i ["sublowpass"])
      (mapping ++ sd_sm.2, filters1 ++ crossover_filters,
       pipeline0 ++ mains_output_filters ++ sub_output_filters)
    else
      (mapping, filters1, pipeline0)
  { devices := devices,
    mixers := [(mixer_name,
      { channels_in := capture_channels, channels_out := playback_channels,
        mapping := res.1 })],
    filters := res.2.1,
    pipeline := res.2.2 }

/-- Splits a character list at spaces, keeping empty words. -/
def split_on_space : List Char → List (List Char)
  | [] => [[]]
  | c :: t =>
    let r := split_on_space t
    if c = ' ' then [] :: r
    else
      match r with
      | [] => [[c]]
      | w :: ws => (c :: w) :: ws

/-- Python's `s.split()`: split on whitespace, dropping empty words (the
menu labels contain only single spaces). -/
def py_split (s : String) : List String :=
  ((split_on_space s.toList).filter (fun w => !w.isEmpty)).map List.asString

/-- Menu-label parsing: `config.split()` then `routing, *correction = ...; correction =
correction[0] if correction else ''` — splits a menu label such as
`'2.1 DRC'` into routing and correction. -/
def parse_config_label (config : String) : String × String :=
  match py_split config with
  | [] => ("", "")
  | [r] => (r, "")
  | r :: c :: _ => (r, c)

/-- Helper: `create_config` invoked the way `MyWindow.create_configs` invokes it:
with the module-level hardware constants. -/
def app_create (routing input_source correction : String) : Config :=
  create_config routing input_source correction PLAYBACK_DEVICE
    PLAYBACK_CHANNELS SAMPLERATE CROSSOVER_FREQUENCY MAINS_DELAY
    (some DRC_FILTER)

/-- One entry of `MyWindow.create_configs`: the `create_config` call made for
a `(config-label, source)` menu pair. -/
def create_configs_entry (config source : String) : Config :=
  let rc := parse_config_label config
  app_create rc.1 source rc.2

/-- The concatenated mapping lists of a config's mixers (there is always
exactly one mixer, so this is its mapping). -/
def mixer_mapping (c : Config) : List ChannelMapping :=
  (c.mixers.map (fun kv => kv.2.mapping)).flatten

/-- Well-formedness checked for claim C1: every filter name referenced by a
pipeline step is a key of the filter bank, and each mixer's `in`/`out`
channel counts equal the declared capture/playback channel counts. -/
def config_wellformed (c : Config) : Bool :=
  c.pipeline.all (fun s =>
    match s with
    | .filter _ names =>
        names.all (fun n => c.filters.any (fun kv => kv.1 == n))
    | .mixer _ => true)
  && c.mixers.all (fun kv =>
       kv.2.channels_in == c.devices.capture.channels
       && kv.2.channels_out == c.devices.playback.channels)

/-- Handler `MyWindow.on_vol_down`, reduced to its effect on the engine volume: the
write `set_volume(vol - VOL_STEP)` happens only when `vol > MIN_VOL`;
`none` models the no-op (no `set_volume` call). -/
def vol_down_write (vol : ℚ) : Option ℚ :=
  if vol > MIN_VOL then some (vol - VOL_STEP) else none

/-- Handler `MyWindow.on_vol_up`, reduced to its effect on the engine volume: the
write `set_volume(vol + VOL_STEP)` happens only when `vol <= -VOL_STEP`. -/
def vol_up_write (vol : ℚ) : Option ℚ :=
  if vol ≤ -VOL_STEP then some (vol + VOL_STEP) else none

/-- The engine volume after one `on_vol_down` transition. -/
def on_vol_down (vol : ℚ) : ℚ :=
  (vol_down_write vol).getD vol

/-- The engine volume after one `on_vol_up` transition. -/
def on_vol_up (vol : ℚ) : ℚ :=
  (vol_up_write vol).getD vol

/-- Handler `MyWindow.set_balance`, reduced to its effect on the two balance-filter
gains `(gain0, gain1)` read by `get_balance`; a side other than
`'left'`/`'right'` performs no write (the guarded `set_config` is skipped). -/
def set_balance (side : String) (g : ℚ × ℚ) : ℚ × ℚ :=
  if side = "left" then
    if g.1 = 0 then (0, g.2 - VOL_STEP)
    else (g.1 + VOL_STEP, 0)
  else if side = "right" then
    if g.2 = 0 then (g.1 - VOL_STEP, 0)
    else (0, g.2 + VOL_STEP)
  else g

/-- The balance gains after a sequence of `set_balance` calls (most recent
call first), starting from the centred state `(0, 0)`. -/
def balance_run : List String → ℚ × ℚ
  | [] => (0, 0)
  | s :: rest => set_balance s (balance_run rest)

/-- The menu-advance computation inside `MyWindow.menu_step`:
`next_index = (menu_items.index(current) + step) % len(menu_items)`, with
Python's nonnegative `%` for a positive modulus (`Int.emod`). -/
def menu_next (items : List String) (current : String) (step : ℤ) : String :=
  let current_index : ℤ := items.indexOf current
  let next_index := (current_index + step).emod items.length
  items.getD next_index.toNat ""

/-- The locally tracked menu position: the texts of the config and source
labels, which `menu_step` reads back to compute the next selection. -/
structure UiState where
  config_label : String
  source_label : String
deriving DecidableEq, Repr

/-- Method `MyWindow.load_config_object`: looks up the catalog entry, pushes it with
`set_config`, and only then updates the two labels.  `set_config_ok = false`
models `set_config` raising an `EngineError`: the exception propagates and
the label updates after it never run, so the error result carries the state
unchanged. -/
def load_config_object (set_config_ok : Bool) (config source : String)
    (st : UiState) : Except UiState UiState :=
  if set_config_ok then Except.ok { config_label := config, source_label := source }
  else Except.error st

/-- Method `MyWindow.menu_step(key, step)`: reads the current labels, advances the
`key` menu cyclically, and calls `load_config_object` with the updated
`(config, source)` pair. -/
def menu_step (set_config_ok : Bool) (key : String) (step : ℤ)
    (st : UiState) : Except UiState UiState :=
  let items := if key = "config" then menu_config else menu_source
  let current := if key = "config" then st.config_label else st.source_label
  let next := menu_next items current step
  let new_config := if key = "config" then next else st.config_label
  let new_source := if key = "source" then next else st.source_label
  load_config_object set_config_ok new_config new_source st

/-- One `config_next` step on the config-menu label alone (`menu_step` with
key `'config'`, step `+1`, engine write succeeding). -/
def config_next (label : String) : String :=
  menu_next menu_config label 1

/-- Filter-bank predicates used to count filters by kind. -/
def isConv : FilterDef → Bool
  | .conv _ _ _ => true
  | _ => false

/-- Recognises the `LinkwitzRileyLowpass` crossover filter. -/
def isLowpass : FilterDef → Bool
  | .biquadCombo t _ _ => t == "LinkwitzRileyLowpass"
  | _ => false

/-- Recognises the `LinkwitzRileyHighpass` crossover filter. -/
def isHighpass : FilterDef → Bool
  | .biquadCombo t _ _ => t == "LinkwitzRileyHighpass"
  | _ => false

/-- Recognises the `Delay` filter. -/
def isDelayFilter : FilterDef → Bool
  | .delay _ _ _ => true
  | _ => false

/-- Claim C1: for every (topology label, input source) combination in the
declared menu lists, the configuration produced by `create_config` is
well-formed — every filter name referenced by a pipeline step is a key of
the filter bank, and the mixer's `in`/`out` channel counts equal the
declared capture/playback channel counts. -/
theorem catalog_configs_wellformed :
    ∀ config ∈ menu_config, ∀ source ∈ menu_source,
      config_wellformed (create_configs_entry config source) = true := by
  decide

/-- Witness for C1 at the first menu pair. -/
theorem catalog_configs_wellformed_witness :
    config_wellformed (create_configs_entry "2.1 DRC" "Stream") = true :=
  catalog_configs_wellformed "2.1 DRC" (by decide) "Stream" (by decide)

/-- Claim C2: `create_config('2.1', 'Stream', 'DRC', playback_channels=4,
crossover=80, delay=9.2, samplerate=44100)` yields exactly 3 mixer
destination mappings (2 satellite single-source + 1 subwoofer two-source),
exactly the correction filters `drc_0`, `drc_1`, exactly one low-pass, one
high-pass and one delay filter, and the pipeline ordered as 2 pre-mix
filter steps, the mixer step, 2 post-mix satellite steps naming the
high-pass then the delay, then 1 post-mix subwoofer step naming the
low-pass. -/
theorem two_one_stream_drc_shape :
    (mixer_mapping (create_config "2.1" "Stream" "DRC" "hw:Headphone,0"
        4 44100 80 9.2 none)).map (fun m => (m.dest, m.sources.length))
      = [(0, 1), (1, 1), (2, 2)]
    ∧ ((create_config "2.1" "Stream" "DRC" "hw:Headphone,0"
        4 44100 80 9.2 none).filters.filter
          (fun kv => isConv kv.2)).map Prod.fst = ["drc_0", "drc_1"]
    ∧ ((create_config "2.1" "Stream" "DRC" "hw:Headphone,0"
        4 44100 80 9.2 none).filters.filter
          (fun kv => isLowpass kv.2)).map Prod.fst = ["sublowpass"]
    ∧ ((create_config "2.1" "Stream" "DRC" "hw:Headphone,0"
        4 44100 80 9.2 none).filters.filter
          (fun kv => isHighpass kv.2)).map Prod.fst = ["mainshighpass"]
    ∧ ((create_config "2.1" "Stream" "DRC" "hw:Headphone,0"
        4 44100 80 9.2 none).filters.filter
          (fun kv => isDelayFilter kv.2)).map Prod.fst = ["mainsdelay"]
    ∧ (create_config "2.1" "Stream" "DRC" "hw:Headphone,0"
        4 44100 80 9.2 none).pipeline
      = [.filter 0 ["volume", "drc_0"], .filter 1 ["volume", "drc_1"],
         .mixer "Stream-2.1",
         .filter 0 ["mainshighpass", "mainsdelay"],
         .filter 1 ["mainshighpass", "mainsdelay"],
         .filter 2 ["sublowpass"]] := by
  decide

/-- Claim C7: cycling the config menu with step +1 returns to the start
after `len(menu)` steps from any member, and a single step moves the menu
index by ±1 modulo the menu length, wrapping at both ends. -/
theorem config_menu_cycle :
    (∀ label ∈ menu_config,
      config_next^[menu_config.length] label = label)
    ∧ (∀ i < menu_config.length,
        config_next (menu_config.getD i "")
          = menu_config.getD ((i + 1) % menu_config.length) ""
        ∧ menu_next menu_config (menu_config.getD i "") (-1)
          = menu_config.getD
              ((i + menu_config.length - 1) % menu_config.length) "") := by
  decide

/-- Witness for C7: a full cycle from `'2.0'`, and the wrap from the last
entry `'Mono'` back to the first. -/
theorem config_menu_cycle_witness :
    config_next^[4] "2.0" = "2.0" ∧ config_next "Mono" = "2.1 DRC" :=
  ⟨config_menu_cycle.1 "2.0" (by decide),
   (config_menu_cycle.2 3 (by decide)).1⟩

/-- Claim C9: if `set_config` fails with an `EngineError` while `menu_step`
pushes the looked-up configuration, the locally tracked menu position (the
two label texts) is left unchanged — labels are updated only after the
push succeeds. -/
theorem menu_step_engine_error (key : String) (step : ℤ) (st : UiState) :
    menu_step false key step st = Except.error st := rfl

/-- Claim C10: with topology `'2.1'`, for every menu input source and
correction mode, the subwoofer destination mapping (channel 2) has two
source rules at 0.0 dB each (the builder's default), while the `Mono`
topology's mains downmix uses -6.0 dB per source rule. -/
theorem sub_downmix_gains :
    ∀ src ∈ menu_source, ∀ corr ∈ ["DRC", ""],
      (mixer_mapping (app_create "2.1" src corr)).map
          (fun m => (m.dest, m.sources.map MixSource.gain))
        = [(0, [0]), (1, [0]), (2, [0, 0])]
      ∧ (mixer_mapping (app_create "Mono" src corr)).map
          (fun m => m.sources.map MixSource.gain)
        = [[-6, -6], [-6, -6]] := by
  decide

/-- Witness for C10 at `('Stream', 'DRC')`. -/
theorem sub_downmix_gains_witness :
    (mixer_mapping (app_create "2.1" "Stream" "DRC")).map
        (fun m => (m.dest, m.sources.map MixSource.gain))
      = [(0, [0]), (1, [0]), (2, [0, 0])] :=
  (sub_downmix_gains "Stream" (by decide) "DRC" (by decide)).1

/-- Claim C5: starting at 0.0 dB, any number of `on_vol_up` transitions
keeps the volume at or below 0.0 dB; starting at the -99.5 dB floor, any
number of `on_vol_down` transitions keeps it at or above the floor. -/
theorem volume_iterate_clamped (n : ℕ) :
    on_vol_up^[n] 0 ≤ 0 ∧ MIN_VOL ≤ on_vol_down^[n] MIN_VOL := by
  have h1 : on_vol_up (0 : ℚ) = 0 := by
    rw [on_vol_up, vol_up_write, if_neg (by norm_num [VOL_STEP])]
    rfl
  have h2 : on_vol_down MIN_VOL = MIN_VOL := by
    rw [on_vol_down, vol_down_write, if_neg (lt_irrefl MIN_VOL)]
    rfl
  rw [Function.iterate_fixed h1, Function.iterate_fixed h2]
  exact ⟨le_refl 0, le_refl MIN_VOL⟩

/-- Claim C6: for every sequence of `set_balance` transitions starting from
gains `(0, 0)`, after every transition at least one of the two
balance-filter gains equals 0. -/
theorem balance_never_both_nonzero (l : List String) :
    (balance_run l).1 = 0 ∨ (balance_run l).2 = 0 := by
  induction l with
  | nil => exact Or.inl rfl
  | cons s rest ih =>
    show (set_balance s (balance_run rest)).1 = 0
      ∨ (set_balance s (balance_run rest)).2 = 0
    rw [set_balance]
    split_ifs
    · exact Or.inl rfl
    · exact Or.inr rfl
    · exact Or.inr rfl
    · exact Or.inl rfl
    · exact ih

/-- Counterexample to C4 as stated: at live volume -99.25 dB the code's
condition `vol > MIN_VOL` holds, so `on_vol_down` writes back -99.75 dB,
which is below the -99.5 dB floor — the write is not conditioned on
`v - 0.5` staying within bounds. -/
theorem vol_down_floor_counterexample :
    vol_down_write (-99.25) = some (-99.75) ∧ ¬ MIN_VOL ≤ (-99.75 : ℚ) := by
  constructor
  · rw [vol_down_write, if_pos (by norm_num [MIN_VOL])]
    norm_num [VOL_STEP]
  · norm_num [MIN_VOL]

/-- Claim C4 as amended: `on_vol_up` writes back `v + 0.5` iff that does not
exceed 0.0 dB (and the written value never exceeds 0.0 dB); `on_vol_down`
writes back `v - 0.5` iff `v` is strictly above the -99.5 dB floor, so the
written value always stays above -100.0 dB, and stays at or above -99.5 dB
whenever `v` lies on the half-dB grid; in every other case the transition
leaves the engine volume unchanged. -/
theorem vol_step_clamped (v : ℚ) :
    (vol_up_write v = some (v + VOL_STEP) ↔ v + VOL_STEP ≤ 0)
    ∧ (vol_down_write v = some (v - VOL_STEP) ↔ MIN_VOL < v)
    ∧ (vol_up_write v = none → on_vol_up v = v)
    ∧ (vol_down_write v = none → on_vol_down v = v)
    ∧ (∀ w, vol_up_write v = some w → w ≤ 0)
    ∧ (∀ w, vol_down_write v = some w → MIN_VOL - VOL_STEP < w)
    ∧ ((∃ k : ℤ, v = k * VOL_STEP) →
        ∀ w, vol_down_write v = some w → MIN_VOL ≤ w) := by
  refine ⟨?_, ?_, ?_, ?_, ?_, ?_, ?_⟩
  · constructor
    · intro hc
      by_cases h : v ≤ -VOL_STEP
      · linarith
      · rw [vol_up_write, if_neg h] at hc
        exact absurd hc (by simp)
    · intro hc
      rw [vol_up_write, if_pos (by linarith : v ≤ -VOL_STEP)]
  · constructor
    · intro hc
      by_cases h : MIN_VOL < v
      · exact h
      · rw [vol_down_write, if_neg h] at hc
        exact absurd hc (by simp)
    · intro hc
      rw [vol_down_write, if_pos hc]
  · intro h; rw [on_vol_up, h]; rfl
  · intro h; rw [on_vol_down, h]; rfl
  · intro w hw
    by_cases h : v ≤ -VOL_STEP
    · rw [vol_up_write, if_pos h] at hw
      obtain rfl := Option.some.inj hw
      linarith
    · rw [vol_up_write, if_neg h] at hw
      exact absurd hw (by simp)
  · intro w hw
    by_cases h : MIN_VOL < v
    · rw [vol_down_write, if_pos h] at hw
      obtain rfl := Option.some.inj hw
      have hs : (0 : ℚ) < VOL_STEP := by norm_num [VOL_STEP]
      linarith
    · rw [vol_down_write, if_neg h] at hw
      exact absurd hw (by simp)
  · rintro ⟨k, rfl⟩ w hw
    by_cases h : MIN_VOL < (k : ℚ) * VOL_STEP
    · rw [vol_down_write, if_pos h] at hw
      obtain rfl := Option.some.inj hw
      rw [MIN_VOL, VOL_STEP] at h ⊢
      have hk : (-199 : ℚ) < (k : ℚ) := by
        norm_num at h
        linarith
      have hkz : (-199 : ℤ) < k := by exact_mod_cast hk
      have hk2 : (-198 : ℤ) ≤ k := by omega
      have hkq : (-198 : ℚ) ≤ (k : ℚ) := by exact_mod_cast hk2
      norm_num
      linarith
    · rw [vol_down_write, if_neg h] at hw
      exact absurd hw (by simp)

/-- Witness for the amended C4 at v = -99 dB: the step is taken and the
written value -99.5 dB is exactly the floor. -/
theorem vol_step_clamped_witness :
    vol_down_write (-99) = some ((-99 : ℚ) - VOL_STEP)
    ∧ MIN_VOL ≤ (-99 : ℚ) - VOL_STEP := by
  have h := vol_step_clamped (-99)
  have hw : vol_down_write (-99) = some ((-99 : ℚ) - VOL_STEP) :=
    h.2.1.mpr (by norm_num [MIN_VOL])
  exact ⟨hw, h.2.2.2.2.2.2 ⟨-198, by norm_num [VOL_STEP]⟩ _ hw⟩

/-- Counterexample to C3 as stated: with `mono=False` the builder emits the
source rule at the *given* gain argument, not at a hard-coded 0.0 dB — at
gain 1 the produced rule's gain is 1 ≠ 0. -/
theorem channel_map_gain_counterexample :
    get_channel_map [5] [7] false 1
      = [{ dest := 5, mute := false,
           sources := [{ channel := 7, gain := 1,
                         inverted := false, mute := false }] }]
    ∧ (1 : ℚ) ≠ 0 :=
  ⟨by decide, one_ne_zero⟩

/-- In stereo mode the produced `dest` fields are the first
`min |dest| |inp|` destinations in order. -/
lemma channel_map_stereo_map_dest (dest inp : List ℕ) (g : ℚ) :
    (get_channel_map dest inp false g).map ChannelMapping.dest
      = dest.take (min dest.length inp.length) := by
  induction dest generalizing inp with
  | nil => simp [get_channel_map]
  | cons d ds ih =>
    cases inp with
    | nil => simp [get_channel_map]
    | cons i is =>
      have h := ih is
      simp only [get_channel_map, Bool.false_eq_true, if_false] at h
      simp only [get_channel_map, Bool.false_eq_true, if_false,
        List.zip_cons_cons, List.map_cons, List.length_cons,
        Nat.succ_min_succ, List.take_succ_cons]
      rw [h]

/-- In stereo mode the k-th mapping pairs the k-th destination with the k-th
input channel, one source rule at the given gain. -/
lemma channel_map_stereo_getD (dest inp : List ℕ) (g : ℚ) :
    ∀ k, k < min dest.length inp.length →
      (get_channel_map dest inp false g).getD k
          { dest := 0, mute := false, sources := [] }
        = { dest := dest.getD k 0, mute := false,
            sources := [{ channel := inp.getD k 0, gain := g,
                          inverted := false, mute := false }] } := by
  induction dest generalizing inp with
  | nil => intro k hk; simp at hk
  | cons d ds ih =>
    intro k hk
    cases inp with
    | nil => simp at hk
    | cons i is =>
      cases k with
      | zero => simp [get_channel_map]
      | succ k2 =>
        rw [List.length_cons, List.length_cons, Nat.succ_min_succ] at hk
        have h := ih is k2 (Nat.lt_of_succ_lt_succ hk)
        simp only [get_channel_map, Bool.false_eq_true, if_false] at h
        simp only [get_channel_map, Bool.false_eq_true, if_false,
          List.zip_cons_cons, List.map_cons, List.getD_cons_succ]
        exact h

/-- Claim C3 as amended: with `mono=True` the builder yields one mapping per
destination, each with one source rule per input channel at the given gain,
not inverted and not muted; with `mono=False` it yields
`min |destinations| |inputs|` mappings by positional pairing, each with
exactly one source rule from its paired input channel at the *given* gain
(0.0 being the caller-side default), output order following the
destinations' order. -/
theorem get_channel_map_spec (dest inp : List ℕ) (g : ℚ) :
    ((get_channel_map dest inp true g).length = dest.length
      ∧ (get_channel_map dest inp true g).map ChannelMapping.dest = dest
      ∧ ∀ m ∈ get_channel_map dest inp true g,
          m.mute = false ∧ m.sources.length = inp.length
          ∧ m.sources.map MixSource.channel = inp
          ∧ ∀ s ∈ m.sources,
              s.gain = g ∧ s.inverted = false ∧ s.mute = false)
    ∧ ((get_channel_map dest inp false g).length
          = min dest.length inp.length
      ∧ (get_channel_map dest inp false g).map ChannelMapping.dest
          = dest.take (min dest.length inp.length)
      ∧ ∀ k, k < min dest.length inp.length →
          (get_channel_map dest inp false g).getD k
              { dest := 0, mute := false, sources := [] }
            = { dest := dest.getD k 0, mute := false,
                sources := [{ channel := inp.getD k 0, gain := g,
                              inverted := false, mute := false }] }) := by
  refine ⟨⟨?_, ?_, ?_⟩, ?_, ?_, ?_⟩
  · simp [get_channel_map]
  · simp [get_channel_map, Function.comp_def]
  · intro m hm
    simp only [get_channel_map, if_true, List.mem_map] at hm
    obtain ⟨i, hi, rfl⟩ := hm
    refine ⟨rfl, by simp, by simp [Function.comp_def], ?_⟩
    intro s hs
    simp only [List.mem_map] at hs
    obtain ⟨j, hj, rfl⟩ := hs
    exact ⟨rfl, rfl, rfl⟩
  · simp [get_channel_map]
  · exact channel_map_stereo_map_dest dest inp g
  · exact channel_map_stereo_getD dest inp g

/-- Witness for the amended C3 on concrete lists. -/
theorem get_channel_map_spec_witness :
    (get_channel_map [0, 1] [2, 3] true (-6)).length = 2
    ∧ (get_channel_map [0, 1] [2, 3] false 0).getD 1
        { dest := 0, mute := false, sources := [] }
      = { dest := 1, mute := false,
          sources := [{ channel := 3, gain := 0,
                        inverted := false, mute := false }] } := by
  have h1 := get_channel_map_spec [0, 1] [2, 3] (-6)
  have h2 := get_channel_map_spec [0, 1] [2, 3] 0
  exact ⟨h1.1.1, h2.2.2.2 1 (by norm_num)⟩

/-- Claim C8: `create_config('2.0', direct-source, no correction,
playback_channels=4)` (with any non-`'Stream'` source) declares a 4-channel
capture on the playback device, reads capture channels `[2, 3]`, contains no
crossover and no correction filters (filter bank is just `volume`), and has
exactly 2 mixer destination mappings, each a single source rule at 0.0 dB. -/
theorem stereo_direct_shape (src : String) (h : src ≠ "Stream") :
    (create_config "2.0" src "" "hw:Headphone,0"
        4 44100 80 0 none).devices.capture.channels = 4
    ∧ (create_config "2.0" src "" "hw:Headphone,0"
        4 44100 80 0 none).devices.capture.device = "hw:Headphone,0"
    ∧ (create_config "2.0" src "" "hw:Headphone,0"
        4 44100 80 0 none).filters.map Prod.fst = ["volume"]
    ∧ (create_config "2.0" src "" "hw:Headphone,0"
        4 44100 80 0 none).pipeline
      = [.filter 2 ["volume"], .filter 3 ["volume"],
         .mixer (src ++ "-" ++ "2.0")]
    ∧ mixer_mapping (create_config "2.0" src "" "hw:Headphone,0"
        4 44100 80 0 none)
      = [{ dest := 0, mute := false,
           sources := [{ channel := 2, gain := 0,
                         inverted := false, mute := false }] },
         { dest := 1, mute := false,
           sources := [{ channel := 3, gain := 0,
                         inverted := false, mute := false }] }] := by
  simp [create_config, mixer_mapping, get_channel_map, h]

/-- Witness for C8 at the menu's direct source `'Phono'`. -/
theorem stereo_direct_shape_witness :
    (create_config "2.0" "Phono" "" "hw:Headphone,0"
        4 44100 80 0 none).devices.capture.channels = 4
    ∧ (create_config "2.0" "Phono" "" "hw:Headphone,0"
        4 44100 80 0 none).pipeline
      = [.filter 2 ["volume"], .filter 3 ["volume"], .mixer "Phono-2.0"] := by
  have h := stereo_direct_shape "Phono" (by decide)
  exact ⟨h.1, h.2.2.2.1⟩

end CamillaRC
